import Mathlib

/-!
Verification of `examples/force_mode_example.cpp` from the
Universal_Robots_Client_Library repository.

The file shallowly embeds the example's control flow: the program-state
callback `handleRobotProgramState`, the blocking wait
`waitForProgramRunning`, the version-gated `startForceMode` call-site
payloads, the heartbeat loop, and the `main` session sequence
(dashboard connect, stop command, driver creation, calibration check,
readiness wait, force-mode start, keepalive loop, force-mode end).

External library calls (DashboardClient, UrDriver) are not part of the
source tree here; their boolean results are supplied through an
environment record `Env` of oracle inputs, and `mainRun` records the
sequence of calls the example makes as a trace of `Event`s together
with the process exit code.  Timing is modelled deterministically in
integer milliseconds: a condition-variable `wait_for` returns
`no_timeout` exactly when a notification arrives during the wait
(spurious wakeups are not modelled), and each heartbeat iteration
advances a caller-supplied positive elapsed time.
-/

namespace ForceModeExample

/-- Firmware version tuple as reported by `UrDriver::getVersion()`
(`VersionInformation` in the library): major, minor, bugfix, build. -/
structure VersionInformation where
  major : Nat
  minor : Nat
  bugfix : Nat
  build : Nat
deriving DecidableEq

/-- Argument tuple of one `startForceMode` call as written at the call
site (lines 179-193 of the example).  Numeric literals are exact
rationals; `gain_scaling` is `none` when the call omits the trailing
gain-scaling argument and `some g` when it passes it. -/
structure ForceModeArgs where
  task_frame : List ℚ
  selection_vector : List ℚ
  wrench : List ℚ
  type : Nat
  limits : List ℚ
  damping_factor : ℚ
  gain_scaling : Option ℚ
deriving DecidableEq

/-- The argument tuple of the `getVersion().major < 5` branch
(lines 179-184): six-element task frame, compliance selection vector,
wrench, frame type 2, limits, damping factor, and no gain scaling. -/
def startForceModeArgsPre5 : ForceModeArgs :=
  { task_frame := [0, 0, 0, 0, 0, 0]
    selection_vector := [0, 0, 1, 0, 0, 1]
    wrench := [0, 0, -2, 0, 0, 0]
    type := 2
    limits := [0.1, 0.1, 1.5, 3.14, 3.14, 0.5]
    damping_factor := 0.005
    gain_scaling := none }

/-- The argument tuple of the `else` branch (lines 187-193): identical
fields plus the trailing gain-scaling argument `1.0`. -/
def startForceModeArgsV5Plus : ForceModeArgs :=
  { task_frame := [0, 0, 0, 0, 0, 0]
    selection_vector := [0, 0, 1, 0, 0, 1]
    wrench := [0, 0, -2, 0, 0, 0]
    type := 2
    limits := [0.1, 0.1, 1.5, 3.14, 3.14, 0.5]
    damping_factor := 0.005
    gain_scaling := some 1.0 }

/-- The argument tuple `main` passes to `startForceMode`, selected by
the branch `if (g_my_driver->getVersion().major < 5)` (line 178) before
either call is made. -/
def forceModeCommandArgs (v : VersionInformation) : ForceModeArgs :=
  if v.major < 5 then startForceModeArgsPre5 else startForceModeArgsV5Plus

/-- The callback `handleRobotProgramState` (lines 63-73) acting on the
shared flag `g_program_running`.  It takes the reported value and the
current flag and returns the new flag together with whether
`notify_one` was called: only a `true` report writes the flag and
notifies; a `false` report leaves the flag untouched. -/
def handleRobotProgramState (program_running : Bool) (g_program_running : Bool) :
    Bool × Bool :=
  if program_running then (program_running, true) else (g_program_running, false)

/-- The function `waitForProgramRunning` (lines 85-94).  Deterministic
timing model of `g_program_running_cv.wait_for`: it returns
`no_timeout` exactly when a notification arrives during the wait
(input `notifiedDuringWait`, at elapsed time `notifyTime`); otherwise
it blocks for the full `milliseconds` timeout and returns `timeout`,
after which the source checks `g_program_running == true`.  The result
is the returned boolean paired with the elapsed blocking time in
milliseconds. -/
def waitForProgramRunning (milliseconds : Nat) (notifiedDuringWait : Bool)
    (notifyTime : Nat) (g_program_running : Bool) : Bool × Nat :=
  if notifiedDuringWait then (true, notifyTime)
  else if g_program_running then (true, milliseconds)
  else (false, milliseconds)

/-- The function `sendFreedriveMessageOrDie` (lines 75-83): given the
result of `writeFreedriveControlMessage`, it calls `exit(1)` on failure
(`some 1`) and returns normally on success (`none`). -/
def sendFreedriveMessageOrDie (ret : Bool) : Option Nat :=
  if ret then none else some 1

/-- One entry of the call trace `main` produces: each externally
visible call the example makes, in program order.  `startForceMode`
records the argument tuple passed. -/
inductive Event where
  | dashboardConnect
  | dashboardStop
  | createDriver
  | checkCalibration
  | logCalibrationMismatch
  | waitForProgramRunning
  | startForceMode (args : ForceModeArgs)
  | writeKeepalive
  | endForceMode
deriving DecidableEq

/-- Oracle inputs for one run of `main`: the boolean results returned
by the external library calls, the firmware version the driver
reports, the command-line run duration in seconds, the deterministic
timing inputs of the readiness wait, and the per-iteration elapsed
time (milliseconds, as measured by the loop's stopwatch) of the
heartbeat loop.  `keepaliveResults` and `endForceModeOk` are the
results of `writeKeepalive()` and `endForceMode()`; the source
discards both. -/
structure Env where
  connectOk : Bool
  stopOk : Bool
  calibrationOk : Bool
  notifiedDuringWait : Bool
  notifyTime : Nat
  programRunningFlag : Bool
  version : VersionInformation
  startForceModeOk : Bool
  keepaliveResults : Nat → Bool
  endForceModeOk : Bool
  secondsToRun : Nat
  delta : Nat → Nat

/-- The heartbeat loop of `main` (lines 201-213):
`while (time_done < timeout || second_to_run.count() == 0)` with one
`writeKeepalive()` per iteration, `time_done` advanced by the measured
elapsed time `delta i` of iteration `i`.  Time is in milliseconds and
`timeout` is the run duration; `fuel` bounds the number of modelled
iterations, `none` meaning the loop has not exited within `fuel`
iterations.  On exit it returns the emitted keepalive events and the
final `time_done`. -/
def heartbeatLoop (second_to_run timeout : Nat) (delta : Nat → Nat) :
    Nat → Nat → Nat → Option (List Event × Nat)
  | 0, _, time_done =>
    if time_done < timeout ∨ second_to_run = 0 then none else some ([], time_done)
  | fuel + 1, i, time_done =>
    if time_done < timeout ∨ second_to_run = 0 then
      match heartbeatLoop second_to_run timeout delta fuel (i + 1) (time_done + delta i) with
      | none => none
      | some (tr, t) => some (Event.writeKeepalive :: tr, t)
    else some ([], time_done)

/-- The part of `main` from the readiness wait (line 166) onward:
wait failure exits with code 1; then the version-gated
`startForceMode` call, whose failure exits with code 1; then the
heartbeat loop and `endForceMode()`, after which `main` falls off the
end (exit code 0).  The trace lists the calls made from the wait's
return onward. -/
def mainCore (env : Env) (fuel : Nat) : Option (Nat × List Event) :=
  if (waitForProgramRunning 100 env.notifiedDuringWait env.notifyTime
        env.programRunningFlag).1 = false then
    some (1, [])
  else
    if env.startForceModeOk = false then
      some (1, [Event.startForceMode (forceModeCommandArgs env.version)])
    else
      match heartbeatLoop env.secondsToRun (1000 * env.secondsToRun) env.delta fuel 0 0 with
      | none => none
      | some (tr, _) =>
        some (0, Event.startForceMode (forceModeCommandArgs env.version) ::
          (tr ++ [Event.endForceMode]))

/-- The calls `main` makes between a successful `commandStop()` and the
return of `waitForProgramRunning()` (lines 151-166): driver creation
(script deployment), the calibration check, the mismatch log when
`checkCalibration` returns false, and the readiness wait itself. -/
def initTrace (env : Env) : List Event :=
  [Event.dashboardConnect, Event.dashboardStop, Event.createDriver, Event.checkCalibration] ++
    (if env.calibrationOk then [] else [Event.logCalibrationMismatch]) ++
    [Event.waitForProgramRunning]

/-- The whole of `main` (lines 96-216): connect to the dashboard
(failure exits 1), send the stop command (failure exits 1), then the
rest of the session as in `mainCore`, its trace prefixed by
`initTrace`.  The result is `some (exit code, trace)`, or `none` when
the heartbeat loop has not exited within `fuel` iterations. -/
def mainRun (env : Env) (fuel : Nat) : Option (Nat × List Event) :=
  if env.connectOk = false then
    some (1, [Event.dashboardConnect])
  else if env.stopOk = false then
    some (1, [Event.dashboardConnect, Event.dashboardStop])
  else
    (mainCore env fuel).map fun p => (p.1, initTrace env ++ p.2)

/-- A baseline environment for concrete runs: every call succeeds, the
running flag was set before the wait, firmware major 5, one second of
run time, and a single 1000 ms heartbeat iteration. -/
def envDefault : Env :=
  { connectOk := true
    stopOk := true
    calibrationOk := true
    notifiedDuringWait := false
    notifyTime := 0
    programRunningFlag := true
    version := ⟨5, 9, 0, 0⟩
    startForceModeOk := true
    keepaliveResults := fun _ => true
    endForceModeOk := true
    secondsToRun := 1
    delta := fun _ => 1000 }

end ForceModeExample

namespace ForceModeExample

example : startForceModeArgsPre5.damping_factor = startForceModeArgsV5Plus.damping_factor := rfl
example : forceModeCommandArgs ⟨4, 9, 0, 0⟩ = startForceModeArgsPre5 := rfl
example : forceModeCommandArgs ⟨5, 0, 0, 0⟩ = startForceModeArgsV5Plus := rfl
example : (waitForProgramRunning 100 false 0 true) = (true, 100) := by decide
example : startForceModeArgsPre5.gain_scaling = none := rfl
example : startForceModeArgsV5Plus.gain_scaling = some 1.0 := rfl

example :
    mainRun envDefault 1 =
      some (0, [Event.dashboardConnect, Event.dashboardStop, Event.createDriver,
        Event.checkCalibration, Event.waitForProgramRunning,
        Event.startForceMode startForceModeArgsV5Plus, Event.writeKeepalive,
        Event.endForceMode]) := rfl

example : mainRun { envDefault with connectOk := false } 1 =
    some (1, [Event.dashboardConnect]) := rfl

example : mainRun { envDefault with programRunningFlag := false } 1 =
    some (1, [Event.dashboardConnect, Event.dashboardStop, Event.createDriver,
      Event.checkCalibration, Event.waitForProgramRunning]) := rfl

example : mainRun { envDefault with secondsToRun := 0 } 1 = none := rfl

example (k : Nat → Bool) :
    mainRun { envDefault with keepaliveResults := k, endForceModeOk := false } 1 =
      mainRun envDefault 1 := rfl

/-- With a zero run duration the loop guard
`time_done < timeout || second_to_run.count() == 0` is always true, so
the heartbeat loop never exits, whatever fuel it is given. -/
theorem heartbeatLoop_zero_never_exits (timeout : Nat) (delta : Nat → Nat) :
    ∀ fuel i time_done, heartbeatLoop 0 timeout delta fuel i time_done = none := by
  intro fuel
  induction fuel with
  | zero =>
    intro i time_done
    simp [heartbeatLoop]
  | succ fuel ih =>
    intro i time_done
    simp [heartbeatLoop, ih]

/-- With a nonzero run duration and positive per-iteration elapsed
times, the heartbeat loop exits once `time_done` reaches the timeout:
it returns one `writeKeepalive` event per iteration and a final
`time_done` at least the timeout, provided the fuel covers the
remaining time. -/
theorem heartbeatLoop_exits (second_to_run : Nat) (timeout : Nat) (delta : Nat → Nat)
    (hs : second_to_run ≠ 0) (hd : ∀ i, 1 ≤ delta i) :
    ∀ fuel i time_done, timeout ≤ time_done + fuel →
      ∃ n t, heartbeatLoop second_to_run timeout delta fuel i time_done =
          some (List.replicate n Event.writeKeepalive, t) ∧ timeout ≤ t := by
  intro fuel
  induction fuel with
  | zero =>
    intro i time_done ht
    have h1 : ¬ (time_done < timeout ∨ second_to_run = 0) := by omega
    exact ⟨0, time_done, by simp [heartbeatLoop, h1], by omega⟩
  | succ fuel ih =>
    intro i time_done ht
    by_cases hc : time_done < timeout ∨ second_to_run = 0
    · have ht' : timeout ≤ (time_done + delta i) + fuel := by
        have := hd i
        omega
      obtain ⟨n, t, hrec, hT⟩ := ih (i + 1) (time_done + delta i) ht'
      refine ⟨n + 1, t, ?_, hT⟩
      simp [heartbeatLoop, hc, hrec, List.replicate_succ]
    · have h2 : ¬ time_done < timeout := fun h => hc (Or.inl h)
      exact ⟨0, time_done, by simp [heartbeatLoop, hc], by omega⟩

/-- C1: for every reported firmware version with major < 5 the
`startForceMode` call site builds the argument tuple without the
gain-scaling field, and for major >= 5 it builds the tuple with it;
the version branch selects the whole tuple before the call is made. -/
theorem c1_version_gated_gain_scaling (v : VersionInformation) :
    (v.major < 5 →
      forceModeCommandArgs v = startForceModeArgsPre5 ∧
      (forceModeCommandArgs v).gain_scaling = none) ∧
    (5 ≤ v.major →
      forceModeCommandArgs v = startForceModeArgsV5Plus ∧
      (forceModeCommandArgs v).gain_scaling = some 1.0) := by
  constructor
  · intro h
    simp only [forceModeCommandArgs, if_pos h]
    exact ⟨trivial, rfl⟩
  · intro h
    have h5 : ¬ v.major < 5 := by omega
    simp only [forceModeCommandArgs, if_neg h5]
    exact ⟨trivial, rfl⟩

/-- Witness for C1 at firmware versions 4.0.0.0 and 5.9.0.0. -/
theorem c1_version_gated_gain_scaling_witness :
    (forceModeCommandArgs ⟨4, 0, 0, 0⟩ = startForceModeArgsPre5 ∧
      (forceModeCommandArgs ⟨4, 0, 0, 0⟩).gain_scaling = none) ∧
    (forceModeCommandArgs ⟨5, 9, 0, 0⟩ = startForceModeArgsV5Plus ∧
      (forceModeCommandArgs ⟨5, 9, 0, 0⟩).gain_scaling = some 1.0) :=
  ⟨(c1_version_gated_gain_scaling ⟨4, 0, 0, 0⟩).1 (by decide),
   (c1_version_gated_gain_scaling ⟨5, 9, 0, 0⟩).2 (by decide)⟩

/-- C2 counterexample: with the running notification delivered (and the
flag set) strictly before the wait call, so that no notification
arrives during the wait, `waitForProgramRunning 100` does return true,
but only after blocking for the full 100 ms timeout — not immediately,
because the flag is consulted only after `wait_for` has timed out. -/
theorem c2_counterexample :
    (waitForProgramRunning 100 false 0 true).1 = true ∧
    (waitForProgramRunning 100 false 0 true).2 = 100 ∧
    ¬ (waitForProgramRunning 100 false 0 true).2 < 100 := by decide

/-- C2 (amended): if the running notification was delivered strictly
before the wait call (flag already true, no notification during the
wait), `waitForProgramRunning` returns true — no false timeout — but
only after blocking for its full timeout, since the source checks the
condition variable result before the flag. -/
theorem c2_wait_true_after_full_timeout (milliseconds notifyTime : Nat) :
    waitForProgramRunning milliseconds false notifyTime true = (true, milliseconds) := rfl

/-- C3 counterexample: invoking the handler with value false while the
state is Running leaves the state true, not false — the handler never
resets the flag. -/
theorem c3_counterexample :
    ¬ (handleRobotProgramState false true).1 = false := by decide

/-- C3 (amended): a notification with value true sets the running state
to true and notifies the condition variable; a notification with value
false leaves the state unchanged (it never resets Running to
NotRunning) and does not notify. -/
theorem c3_notification_transitions (g : Bool) :
    (handleRobotProgramState true g).1 = true ∧
    (handleRobotProgramState false g).1 = g ∧
    (handleRobotProgramState true g).2 = true ∧
    (handleRobotProgramState false g).2 = false :=
  ⟨rfl, rfl, rfl, rfl⟩

/-- C8: if no running notification ever arrives and the flag is never
set, `waitForProgramRunning` with timeout T terminates, returns false,
and blocks exactly T milliseconds (within T plus a small constant). -/
theorem c8_wait_timeout_returns_false (milliseconds notifyTime : Nat) :
    waitForProgramRunning milliseconds false notifyTime false = (false, milliseconds) ∧
    (waitForProgramRunning milliseconds false notifyTime false).2 ≤ milliseconds :=
  ⟨rfl, le_refl _⟩

/-- C4: whenever the readiness wait fails (returns false), the session
exits with code 1 and its trace contains no `startForceMode` call at
all, whatever arguments. -/
theorem c4_no_mode_start_after_wait_failure (env : Env) (fuel : Nat)
    (h : (waitForProgramRunning 100 env.notifiedDuringWait env.notifyTime
        env.programRunningFlag).1 = false) :
    ∃ tr, mainRun env fuel = some (1, tr) ∧ ∀ a, Event.startForceMode a ∉ tr := by
  unfold mainRun
  by_cases hc : env.connectOk = false
  · rw [if_pos hc]
    exact ⟨[Event.dashboardConnect], rfl, by intro a; simp⟩
  · rw [if_neg hc]
    by_cases hs : env.stopOk = false
    · rw [if_pos hs]
      exact ⟨[Event.dashboardConnect, Event.dashboardStop], rfl, by intro a; simp⟩
    · rw [if_neg hs]
      unfold mainCore
      rw [if_pos h]
      refine ⟨initTrace env, by simp, ?_⟩
      intro a
      unfold initTrace
      by_cases hcal : env.calibrationOk <;> simp [hcal]

/-- Witness for C4: flag never set and no notification during the
wait.  The wait fails, the exit code is 1 and no force-mode start is
in the trace. -/
theorem c4_no_mode_start_after_wait_failure_witness :
    ∃ tr, mainRun { envDefault with programRunningFlag := false } 3 = some (1, tr) ∧
      ∀ a, Event.startForceMode a ∉ tr :=
  c4_no_mode_start_after_wait_failure { envDefault with programRunningFlag := false } 3 rfl

/-- C10: the two firmware branches of the force-mode start pass
identical task frame, selection vector, wrench, frame type, limits and
damping factor; they differ only in the trailing gain-scaling
argument, absent in the pre-5 branch and 1.0 in the 5-plus branch. -/
theorem c10_branches_differ_only_in_gain :
    startForceModeArgsPre5.task_frame = startForceModeArgsV5Plus.task_frame ∧
    startForceModeArgsPre5.selection_vector = startForceModeArgsV5Plus.selection_vector ∧
    startForceModeArgsPre5.wrench = startForceModeArgsV5Plus.wrench ∧
    startForceModeArgsPre5.type = startForceModeArgsV5Plus.type ∧
    startForceModeArgsPre5.limits = startForceModeArgsV5Plus.limits ∧
    startForceModeArgsPre5.damping_factor = startForceModeArgsV5Plus.damping_factor ∧
    startForceModeArgsPre5.gain_scaling = none ∧
    startForceModeArgsV5Plus.gain_scaling = some 1.0 :=
  ⟨rfl, rfl, rfl, rfl, rfl, rfl, rfl, rfl⟩

/-- C5: the exit code is 0 on normal completion (run duration elapsed,
mode ended) and 1 on each fatal step: dashboard connect failure,
stop-command failure, script not confirmed running, mode-start
failure, and rejection of a freedrive control message. -/
theorem c5_exit_codes (env : Env) (fuel : Nat) :
    (env.connectOk = false → mainRun env fuel = some (1, [Event.dashboardConnect])) ∧
    (env.connectOk = true → env.stopOk = false →
      mainRun env fuel = some (1, [Event.dashboardConnect, Event.dashboardStop])) ∧
    (env.connectOk = true → env.stopOk = true →
      (waitForProgramRunning 100 env.notifiedDuringWait env.notifyTime
          env.programRunningFlag).1 = false →
      mainRun env fuel = some (1, initTrace env)) ∧
    (env.connectOk = true → env.stopOk = true →
      (waitForProgramRunning 100 env.notifiedDuringWait env.notifyTime
          env.programRunningFlag).1 = true →
      env.startForceModeOk = false →
      mainRun env fuel = some (1, initTrace env ++
        [Event.startForceMode (forceModeCommandArgs env.version)])) ∧
    sendFreedriveMessageOrDie false = some 1 ∧
    (env.connectOk = true → env.stopOk = true →
      (waitForProgramRunning 100 env.notifiedDuringWait env.notifyTime
          env.programRunningFlag).1 = true →
      env.startForceModeOk = true → env.secondsToRun ≠ 0 →
      (∀ i, 1 ≤ env.delta i) → 1000 * env.secondsToRun ≤ fuel →
      ∃ tr, mainRun env fuel = some (0, tr)) := by
  refine ⟨fun h1 => ?_, fun h1 h2 => ?_, fun h1 h2 h3 => ?_, fun h1 h2 h3 h4 => ?_, rfl,
    fun h1 h2 h3 h4 h5 h6 h7 => ?_⟩
  · simp [mainRun, h1]
  · simp [mainRun, h1, h2]
  · simp [mainRun, mainCore, h1, h2, h3]
  · simp [mainRun, mainCore, h1, h2, h3, h4]
  · obtain ⟨n, t, hrec, ht⟩ :=
      heartbeatLoop_exits env.secondsToRun (1000 * env.secondsToRun) env.delta h5 h6
        fuel 0 0 (by omega)
    exact ⟨initTrace env ++ (Event.startForceMode (forceModeCommandArgs env.version) ::
      (List.replicate n Event.writeKeepalive ++ [Event.endForceMode])),
      by simp [mainRun, mainCore, h1, h2, h3, h4, hrec]⟩

/-- Witness for C5: each fatal step at a concrete environment exits
with code 1, the freedrive rejection exits with code 1, and the
baseline environment completes normally with exit code 0. -/
theorem c5_exit_codes_witness :
    mainRun { envDefault with connectOk := false } 1 = some (1, [Event.dashboardConnect]) ∧
    mainRun { envDefault with stopOk := false } 1 =
      some (1, [Event.dashboardConnect, Event.dashboardStop]) ∧
    mainRun { envDefault with programRunningFlag := false } 1 =
      some (1, initTrace { envDefault with programRunningFlag := false }) ∧
    mainRun { envDefault with startForceModeOk := false } 1 =
      some (1, initTrace { envDefault with startForceModeOk := false } ++
        [Event.startForceMode (forceModeCommandArgs envDefault.version)]) ∧
    sendFreedriveMessageOrDie false = some 1 ∧
    ∃ tr, mainRun envDefault 1000 = some (0, tr) :=
  ⟨(c5_exit_codes { envDefault with connectOk := false } 1).1 rfl,
   (c5_exit_codes { envDefault with stopOk := false } 1).2.1 rfl rfl,
   (c5_exit_codes { envDefault with programRunningFlag := false } 1).2.2.1 rfl rfl rfl,
   (c5_exit_codes { envDefault with startForceModeOk := false } 1).2.2.2.1 rfl rfl rfl rfl,
   (c5_exit_codes envDefault 1).2.2.2.2.1,
   (c5_exit_codes envDefault 1000).2.2.2.2.2 rfl rfl rfl rfl (by decide)
     (fun i => by simp [envDefault]) (by decide)⟩

/-- Helper: when connect and stop succeed, a completed run's trace is
the initialisation trace followed by the core trace, with the same
exit code. -/
theorem mainRun_some_shape (env : Env) (fuel : Nat) (c : Nat) (tr : List Event)
    (h1 : env.connectOk = true) (h2 : env.stopOk = true)
    (h : mainRun env fuel = some (c, tr)) :
    ∃ rest, tr = initTrace env ++ rest ∧ mainCore env fuel = some (c, rest) := by
  unfold mainRun at h
  simp only [h1, h2, Bool.true_eq_false, if_false] at h
  cases hm : mainCore env fuel with
  | none => rw [hm] at h; simp at h
  | some p =>
    rw [hm] at h
    simp only [Option.map_some', Option.some.injEq, Prod.mk.injEq] at h
    exact ⟨p.2, h.2.symm, by rw [← h.1]⟩

/-- Helper: a core trace with exit code 0 ends in the `endForceMode`
call. -/
theorem mainCore_zero_trace_shape (env : Env) (fuel : Nat) (trc : List Event)
    (h : mainCore env fuel = some (0, trc)) :
    ∃ tr2, trc = tr2 ++ [Event.endForceMode] := by
  unfold mainCore at h
  by_cases hw : (waitForProgramRunning 100 env.notifiedDuringWait env.notifyTime
      env.programRunningFlag).1 = false
  · rw [if_pos hw] at h
    simp at h
  · rw [if_neg hw] at h
    by_cases h4 : env.startForceModeOk = false
    · rw [if_pos h4] at h
      simp at h
    · rw [if_neg h4] at h
      cases hb : heartbeatLoop env.secondsToRun (1000 * env.secondsToRun) env.delta fuel 0 0 with
      | none => rw [hb] at h; simp at h
      | some q =>
        rw [hb] at h
        simp only [Option.some.injEq, Prod.mk.injEq] at h
        exact ⟨Event.startForceMode (forceModeCommandArgs env.version) :: q.1, by
          rw [← h.2]; simp⟩

/-- C6 counterexample: the run discards the results of
`writeKeepalive()` and `endForceMode()`: flipping both to failure
leaves the whole run, exit code and trace, unchanged. -/
theorem c6_counterexample :
    envDefault.endForceModeOk = true ∧
    envDefault.keepaliveResults 0 = true ∧
    mainRun { envDefault with
      keepaliveResults := fun _ => false
      endForceModeOk := false } 1 = mainRun envDefault 1 :=
  ⟨rfl, rfl, rfl⟩

/-- C6 (amended): the boolean results of connect, commandStop,
checkCalibration, waitForProgramRunning and startForceMode are
observed and change the session's behaviour, but the results of
writeKeepalive and endForceMode are discarded: the run is invariant
under any choice of them. -/
theorem c6_result_observation (env : Env) (fuel : Nat) :
    (∀ k e, mainRun { env with keepaliveResults := k, endForceModeOk := e } fuel
        = mainRun env fuel) ∧
    Option.map Prod.fst (mainRun { envDefault with connectOk := false } 1) ≠
      Option.map Prod.fst (mainRun envDefault 1) ∧
    Option.map Prod.fst (mainRun { envDefault with stopOk := false } 1) ≠
      Option.map Prod.fst (mainRun envDefault 1) ∧
    Option.map (fun p => p.2.length) (mainRun { envDefault with calibrationOk := false } 1) ≠
      Option.map (fun p => p.2.length) (mainRun envDefault 1) ∧
    Option.map Prod.fst (mainRun { envDefault with programRunningFlag := false } 1) ≠
      Option.map Prod.fst (mainRun envDefault 1) ∧
    Option.map Prod.fst (mainRun { envDefault with startForceModeOk := false } 1) ≠
      Option.map Prod.fst (mainRun envDefault 1) := by
  refine ⟨fun k e => rfl, ?_, ?_, ?_, ?_, ?_⟩ <;> decide

/-- C7: the heartbeat loop never exits when the run duration is 0
(run until interrupted); with a nonzero run duration and positive
per-iteration elapsed times it terminates once the duration has
elapsed, having issued one `writeKeepalive` per iteration; and every
normally completing run ends the mode after the loop, its trace
closing with `endForceMode`. -/
theorem c7_heartbeat_loop_behaviour (s : Nat) (delta : Nat → Nat) :
    (s = 0 → ∀ fuel i t, heartbeatLoop s (1000 * s) delta fuel i t = none) ∧
    (s ≠ 0 → (∀ i, 1 ≤ delta i) → ∀ fuel, 1000 * s ≤ fuel →
      ∃ n t, heartbeatLoop s (1000 * s) delta fuel 0 0 =
          some (List.replicate n Event.writeKeepalive, t) ∧
        1000 * s ≤ t ∧ 1 ≤ n) ∧
    (∀ env : Env, ∀ fuel c tr, mainRun env fuel = some (c, tr) → c = 0 →
      ∃ tr2, tr = tr2 ++ [Event.endForceMode]) := by
  refine ⟨fun hs => ?_, fun hs hd fuel hfuel => ?_, fun env fuel c tr hrun hc => ?_⟩
  · subst hs
    exact heartbeatLoop_zero_never_exits (1000 * 0) delta
  · cases fuel with
    | zero => omega
    | succ f =>
      have hcond : (0 : Nat) < 1000 * s ∨ s = 0 := Or.inl (by omega)
      obtain ⟨n, t, hrec, ht⟩ := heartbeatLoop_exits s (1000 * s) delta hs hd f 1 (delta 0)
        (by have := hd 0; omega)
      refine ⟨n + 1, t, ?_, ht, by omega⟩
      simp [heartbeatLoop, hcond, hrec, List.replicate_succ]
  · subst hc
    by_cases h1 : env.connectOk = false
    · simp [mainRun, h1] at hrun
    · by_cases h2 : env.stopOk = false
      · simp [mainRun, h1, h2] at hrun
      · have h1' : env.connectOk = true := by revert h1; cases env.connectOk <;> simp
        have h2' : env.stopOk = true := by revert h2; cases env.stopOk <;> simp
        obtain ⟨rest, htr, hcore⟩ := mainRun_some_shape env fuel 0 tr h1' h2' hrun
        obtain ⟨tr2, h3⟩ := mainCore_zero_trace_shape env fuel rest hcore
        exact ⟨initTrace env ++ tr2, by rw [htr, h3, List.append_assoc]⟩

/-- Witness for C7: with a zero run duration the loop never exits;
with a one-second duration and 1000 ms iterations it exits having
sent at least one keepalive; the baseline completed run's trace ends
with `endForceMode`. -/
theorem c7_heartbeat_loop_behaviour_witness :
    heartbeatLoop 0 (1000 * 0) (fun _ => 1000) 5 0 0 = none ∧
    (∃ n t, heartbeatLoop 1 (1000 * 1) (fun _ => 1000) 1000 0 0 =
        some (List.replicate n Event.writeKeepalive, t) ∧ 1000 * 1 ≤ t ∧ 1 ≤ n) ∧
    (∃ tr2, (initTrace envDefault ++
        [Event.startForceMode startForceModeArgsV5Plus, Event.writeKeepalive,
          Event.endForceMode]) = tr2 ++ [Event.endForceMode]) :=
  ⟨(c7_heartbeat_loop_behaviour 0 (fun _ => 1000)).1 rfl 5 0 0,
   (c7_heartbeat_loop_behaviour 1 (fun _ => 1000)).2.1 (by decide) (fun i => by decide)
     1000 (by decide),
   (c7_heartbeat_loop_behaviour 1 (fun _ => 1000)).2.2 envDefault 1 0 _ rfl rfl⟩

/-- Helper: the exit code of a run is decided by the connect result,
the stop result and the core of the session alone; the initialisation
trace (and with it the calibration log) never enters it. -/
theorem mainRun_exit_code (env : Env) (fuel : Nat) :
    Option.map Prod.fst (mainRun env fuel) =
      if env.connectOk = false then some 1
      else if env.stopOk = false then some 1
      else Option.map Prod.fst (mainCore env fuel) := by
  unfold mainRun
  by_cases h1 : env.connectOk = false
  · simp [h1]
  · by_cases h2 : env.stopOk = false
    · simp [h1, h2]
    · cases hm : mainCore env fuel <;> simp [h1, h2, hm]

/-- C9: a calibration-checksum mismatch is non-fatal.  The exit code
never depends on the calibration result; the only behavioural
difference a mismatch makes is the one extra mismatch log entry in
the initialisation trace; and a run with a mismatch still reaches the
readiness wait and, when the wait succeeds, the force-mode start. -/
theorem c9_calibration_mismatch_nonfatal (env : Env) (fuel : Nat) :
    Option.map Prod.fst (mainRun { env with calibrationOk := false } fuel) =
      Option.map Prod.fst (mainRun { env with calibrationOk := true } fuel) ∧
    initTrace { env with calibrationOk := false } =
      [Event.dashboardConnect, Event.dashboardStop, Event.createDriver, Event.checkCalibration,
        Event.logCalibrationMismatch, Event.waitForProgramRunning] ∧
    initTrace { env with calibrationOk := true } =
      [Event.dashboardConnect, Event.dashboardStop, Event.createDriver, Event.checkCalibration,
        Event.waitForProgramRunning] ∧
    (env.connectOk = true → env.stopOk = true → ∀ c tr,
      mainRun { env with calibrationOk := false } fuel = some (c, tr) →
      Event.waitForProgramRunning ∈ tr) ∧
    (env.connectOk = true → env.stopOk = true →
      (waitForProgramRunning 100 env.notifiedDuringWait env.notifyTime
          env.programRunningFlag).1 = true →
      ∀ c tr, mainRun { env with calibrationOk := false } fuel = some (c, tr) →
      Event.startForceMode (forceModeCommandArgs env.version) ∈ tr) := by
  refine ⟨?_, rfl, rfl, fun h1 h2 c tr hrun => ?_, fun h1 h2 h3 c tr hrun => ?_⟩
  · rw [mainRun_exit_code, mainRun_exit_code]
    rfl
  · obtain ⟨rest, htr, -⟩ :=
      mainRun_some_shape { env with calibrationOk := false } fuel c tr h1 h2 hrun
    rw [htr]
    exact List.mem_append_left _ (by simp [initTrace])
  · obtain ⟨rest, htr, hcore⟩ :=
      mainRun_some_shape { env with calibrationOk := false } fuel c tr h1 h2 hrun
    rw [htr]
    refine List.mem_append_right _ ?_
    unfold mainCore at hcore
    rw [if_neg (by simp [h3])] at hcore
    by_cases h4 : env.startForceModeOk = false
    · rw [if_pos h4] at hcore
      simp only [Option.some.injEq, Prod.mk.injEq] at hcore
      rw [← hcore.2]
      simp
    · rw [if_neg h4] at hcore
      cases hb : heartbeatLoop env.secondsToRun (1000 * env.secondsToRun) env.delta fuel 0 0 with
      | none => rw [hb] at hcore; simp at hcore
      | some q =>
        rw [hb] at hcore
        simp only [Option.some.injEq, Prod.mk.injEq] at hcore
        rw [← hcore.2]
        simp

/-- Witness for C9 at the baseline environment with a failing
calibration check: the run still reaches the readiness wait and the
force-mode start. -/
theorem c9_calibration_mismatch_nonfatal_witness :
    Event.waitForProgramRunning ∈
      [Event.dashboardConnect, Event.dashboardStop, Event.createDriver, Event.checkCalibration,
        Event.logCalibrationMismatch, Event.waitForProgramRunning,
        Event.startForceMode startForceModeArgsV5Plus, Event.writeKeepalive,
        Event.endForceMode] ∧
    Event.startForceMode (forceModeCommandArgs envDefault.version) ∈
      [Event.dashboardConnect, Event.dashboardStop, Event.createDriver, Event.checkCalibration,
        Event.logCalibrationMismatch, Event.waitForProgramRunning,
        Event.startForceMode startForceModeArgsV5Plus, Event.writeKeepalive,
        Event.endForceMode] :=
  ⟨(c9_calibration_mismatch_nonfatal envDefault 1).2.2.2.1 rfl rfl 0 _ rfl,
   (c9_calibration_mismatch_nonfatal envDefault 1).2.2.2.2 rfl rfl rfl 0 _ rfl⟩

end ForceModeExample
